import Mathlib

/-!
Verification of the MineGuard feature-fusion and risk-classification pipeline.

Shallow embedding of the core logic of `app/main.py` (the `/predict` endpoint:
coordinate handling, demo overrides, the feature defaulting chain and final
numeric coercion, and the alert formatter) and of
`app/models/predictor.py` (`predict`: required-key validation, vector
assembly, probability thresholds, rounding, and the binary predicted flag).

Modelling conventions:
- Python/JSON values are modelled by the inductive type `Val`; Python `None`
  (JSON `null`) is `Val.none`, numbers are exact rationals `Val.num`.
- Python dicts are association lists; parsed JSON objects never carry
  duplicate keys (json.loads keeps the last binding), so lookups take the
  first binding of a key.
- Python floats are modelled as rationals; `round(x, n)` is modelled as
  round-half-to-even on `x * 10^n` (Python's documented rounding mode).
- `float(v)` coercion succeeds exactly on numeric values in this model;
  parsing of numeric strings is not modelled (no claim exercises it, and no
  value produced by the pipeline is a numeric string).
- The classifier model artifact (`model.predict_proba`) is an opaque
  collaborator: an arbitrary function from the 6-entry feature vector to a
  rational probability, together with a flag saying whether loading
  succeeded.
-/

/-- A Python/JSON value as it flows through the pipeline. -/
inductive Val where
  | none
  | num (q : ℚ)
  | str (s : String)
  | dict (entries : List (String × Val))

/-- Python `d[k]` lookup result: `Option.none` models an absent key,
`some Val.none` a key explicitly bound to Python `None`. -/
def dictGet : List (String × Val) → String → Option Val
  | [], _ => Option.none
  | (k, v) :: rest, key => if k = key then some v else dictGet rest key

/-- Python `d.get(k, default)`: the bound value when the key is present
(even when bound to `None`), the default otherwise. -/
def pyGet (d : List (String × Val)) (k : String) (default : Val) : Val :=
  match dictGet d k with
  | some v => v
  | Option.none => default

/-- Python `float(v)`: succeeds on numbers, raises on `None`, dicts and
(non-numeric) strings. Numeric-string parsing is not modelled. -/
def pyFloat : Val → Option ℚ
  | Val.num q => some q
  | _ => Option.none

/-- `_to_float(v, default)` from `app/main.py`: `float(v)` with the default
on `None` or on any coercion failure. -/
def toFloatD (v : Val) (default : ℚ) : ℚ :=
  match v with
  | Val.none => default
  | v => (pyFloat v).getD default

/-- Python truthiness of a value (`bool(v)`). -/
def pyTruthy : Val → Bool
  | Val.none => false
  | Val.num q => q != 0
  | Val.str s => s != ""
  | Val.dict d => !d.isEmpty

/-- Python `a or b`: `a` when truthy, else `b`. -/
def pyOr (a b : Val) : Val :=
  if pyTruthy a then a else b

/-- Python `str(v)`, for the values reaching it here. Numeric and dict
values render to digit/punctuation strings that never contain the risk
keywords searched for downstream, so their exact rendering is irrelevant;
they are abbreviated. -/
def pyStr : Val → String
  | Val.str s => s
  | Val.none => "None"
  | Val.num _ => "0"
  | Val.dict _ => "\x7b\x7d"

/-- Python `s.lower()` (ASCII, which is all the pipeline produces). -/
def pyLower (s : String) : String :=
  String.mk (s.data.map Char.toLower)

/-- Substring occurrence on character lists. -/
def listContainsSub (pattern : List Char) : List Char → Bool
  | [] => pattern.isEmpty
  | a :: as => List.isPrefixOf pattern (a :: as) || listContainsSub pattern as

/-- Python `pattern in s` substring test. -/
def strContains (s pattern : String) : Bool :=
  listContainsSub pattern.data s.data

/-- Round to the nearest integer, ties to even (Python's `round`). -/
def roundHalfEven (q : ℚ) : ℤ :=
  let f := ⌊q⌋
  let frac := q - f
  if frac < 1/2 then f
  else if 1/2 < frac then f + 1
  else if f % 2 = 0 then f else f + 1

/-- Python `round(x, 1)`. -/
def round1 (q : ℚ) : ℚ := (roundHalfEven (q * 10) : ℚ) / 10

/-- Python `round(x, 3)`. -/
def round3 (q : ℚ) : ℚ := (roundHalfEven (q * 1000) : ℚ) / 1000

/-- The mid-resolution feature set built in step 4 of `/predict`
(fields in the order of the dict literal in the source). -/
structure RawFeatures where
  slope : Val
  rainfall : Val
  temperature : Val
  vibration : Val
  wind_speed : Val
  displacement_rate : Val

/-- The three external collaborators consumed by one `/predict` call:
- `weather`: `fetch_openweather` — `Option.none` models a raised exception
  or a non-dict result (both leave `weather_data = {}` in the source);
- `slope`: `get_slope` — may raise (`Except.error`) or return `None` or a
  numeric degrees value;
- `sensor`: `get_latest_sensor_state` — may raise, else a state dict. -/
structure Externals where
  weather : Option (List (String × Val))
  slope : Except Unit (Option ℚ)
  sensor : Except Unit (List (String × Val))

/-- The `weather_data` dict in scope after step 3 of `/predict`. -/
def weatherDict (ext : Externals) : List (String × Val) :=
  match ext.weather with
  | some w => w
  | Option.none => []

/-- Step 4 of `/predict`: the base feature set from body → live weather →
defaults. -/
def baseFeatures (body weather_data : List (String × Val)) : RawFeatures where
  slope := pyGet body "slope" Val.none
  rainfall := pyGet body "rainfall"
    (pyGet weather_data "rain_1h" (pyGet body "rain" (Val.num 10.0)))
  temperature := pyGet body "temperature" (pyGet weather_data "temp" (Val.num 25.0))
  vibration := pyGet body "vibration" Val.none
  wind_speed := pyGet body "wind_speed" (pyGet weather_data "wind_speed" (Val.num 2.0))
  displacement_rate := pyGet body "displacement_rate" Val.none

/-- Step 5 of `/predict`: the hardcoded demo-override table, keyed by
coordinates rounded to one decimal degree. -/
def demoOverrides : List ((ℚ × ℚ) × RawFeatures) :=
  [ (((23.0 : ℚ), (86.5 : ℚ)),  -- Jharia - force HIGH for demo
      { slope := Val.num 50, rainfall := Val.num 70, temperature := Val.num 35,
        vibration := Val.num 3.5, wind_speed := Val.num 10.0,
        displacement_rate := Val.num 0.5 }),
    (((22.3 : ℚ), (84.8 : ℚ)),  -- Talcher - MODERATE
      { slope := Val.num 35, rainfall := Val.num 40, temperature := Val.num 30,
        vibration := Val.num 1.5, wind_speed := Val.num 6.0,
        displacement_rate := Val.num 0.3 }),
    (((23.8 : ℚ), (85.0 : ℚ)),  -- Dhanbad - LOW
      { slope := Val.num 15, rainfall := Val.num 10, temperature := Val.num 25,
        vibration := Val.num 0.2, wind_speed := Val.num 2.0,
        displacement_rate := Val.num 0.1 }) ]

/-- `demo_overrides[demo_key]` lookup for `demo_key = (round(lat,1), round(lon,1))`. -/
def lookupDemo (la lo : ℚ) : Option RawFeatures :=
  (demoOverrides.find? (fun e => decide (e.1 = (la, lo)))).map (·.2)

/-- Step 6 of `/predict`: slope from the request, else the predefined
lookup, else 30.0 (also on lookup failure). -/
def resolveSlope (slopeVal : Val) (ext : Externals) : Val :=
  match slopeVal with
  | Val.none =>
    match ext.slope with
    | Except.error _ => Val.num 30.0
    | Except.ok Option.none => Val.num 30.0
    | Except.ok (some s) => Val.num s
  | v => v

/-- Step 7 of `/predict`: vibration from the request, else the latest
sensor state (default 0.0, also on read failure). -/
def resolveVibration (vibVal : Val) (ext : Externals) : Val :=
  match vibVal with
  | Val.none =>
    match ext.sensor with
    | Except.error _ => Val.num 0.0
    | Except.ok st => pyGet st "vibration" (Val.num 0.0)
  | v => v

/-- Step 8 of `/predict`: displacement rate from the body's `displacement`
field when present (0.01 when its coercion fails), else the slope
heuristic `max(0.01, 0.01 * slope)`. -/
def resolveDisplacement (body : List (String × Val)) (slopeVal : Val) : Val :=
  match pyGet body "displacement" Val.none with
  | Val.none => Val.num (max 0.01 (0.01 * toFloatD slopeVal 30.0))
  | disp =>
    match pyFloat disp with
    | some q => Val.num q
    | Option.none => Val.num 0.01

/-- Step 9 of `/predict`: the final coercion pass producing the numeric
feature dict handed to the predictor (entries in source order). -/
def coerceFinal (f : RawFeatures) : List (String × Val) :=
  [("rainfall", Val.num (toFloatD f.rainfall 10.0)),
   ("temperature", Val.num (toFloatD f.temperature 25.0)),
   ("slope", Val.num (toFloatD f.slope 30.0)),
   ("wind_speed", Val.num (toFloatD f.wind_speed 2.0)),
   ("displacement_rate", Val.num (toFloatD f.displacement_rate 0.01)),
   ("vibration", Val.num (toFloatD f.vibration 0.0))]

/-- Steps 6-8 of `/predict` on the non-override path. -/
def resolveNonDemo (body : List (String × Val)) (ext : Externals) : RawFeatures :=
  let base := baseFeatures body (weatherDict ext)
  let s := resolveSlope base.slope ext
  let v := resolveVibration base.vibration ext
  let d :=
    match base.displacement_rate with
    | Val.none => resolveDisplacement body s
    | dr => dr
  { base with slope := s, vibration := v, displacement_rate := d }

/-- The full feature-resolution pipeline (steps 4-9 of `/predict`) for
already-parsed numeric coordinates. -/
def resolveFeatures (lat lon : ℚ) (body : List (String × Val)) (ext : Externals) :
    List (String × Val) :=
  match lookupDemo (round1 lat) (round1 lon) with
  | some entry => coerceFinal entry
  | Option.none => coerceFinal (resolveNonDemo body ext)

/-- `required_keys` from `app/models/predictor.py` (also the key order of
the step-9 dict literal in `app/main.py`). -/
def requiredKeys : List String :=
  ["rainfall", "temperature", "slope", "wind_speed", "displacement_rate", "vibration"]

/-- The 6-entry input vector assembled by the predictor, in source order;
`Option.none` models a coercion failure while building `input_vec`. -/
def extractVec (features : List (String × Val)) : Option (List ℚ) :=
  match pyFloat (pyGet features "rainfall" Val.none),
        pyFloat (pyGet features "temperature" Val.none),
        pyFloat (pyGet features "slope" Val.none),
        pyFloat (pyGet features "wind_speed" Val.none),
        pyFloat (pyGet features "displacement_rate" Val.none),
        pyFloat (pyGet features "vibration" Val.none) with
  | some r, some t, some s, some w, some d, some v => some [r, t, s, w, d, v]
  | _, _, _, _, _, _ => Option.none

/-- The structured result returned by `predictor.predict` on success. -/
structure RiskPrediction where
  risk : String
  probability : ℚ
  rockfall_predicted : ℤ

/-- The ways `predictor.predict` fails: `modelNotLoaded` and
`predictionFailed` are `RuntimeError`s in the source, `missingFeatures`
is the `ValueError` listing the absent required keys. -/
inductive PredictError where
  | modelNotLoaded
  | missingFeatures (missing : List String)
  | predictionFailed

/-- `predict` from `app/models/predictor.py`: model-loaded check, required
keys check, numeric vector assembly, probability thresholds. `mL` says
whether the model artifact loaded at startup; `model` is the loaded
classifier's positive-class probability function. -/
def predictorPredict (mL : Bool) (model : List ℚ → ℚ)
    (features : List (String × Val)) : Except PredictError RiskPrediction :=
  match mL with
  | false => Except.error PredictError.modelNotLoaded
  | true =>
    match requiredKeys.filter (fun k => (dictGet features k).isNone) with
    | m :: ms => Except.error (PredictError.missingFeatures (m :: ms))
    | [] =>
      match extractVec features with
      | Option.none => Except.error PredictError.predictionFailed
      | some vec =>
        Except.ok
          { risk := if model vec > 0.7 then "high"
                    else if model vec > 0.4 then "medium" else "low",
            probability := round3 (model vec),
            rockfall_predicted := if model vec > 0.5 then 1 else 0 }

/-- The predictor result as the dict `/predict` receives back. -/
def RiskPrediction.toDict (p : RiskPrediction) : List (String × Val) :=
  [("risk", Val.str p.risk),
   ("probability", Val.num p.probability),
   ("rockfall_predicted", Val.num (p.rockfall_predicted : ℚ))]

/-- High-risk alert text from `app/main.py`. -/
def highAlert : String := "⚠️ HIGH RISK of Rockfall detected! Immediate action required."

/-- Moderate-risk alert text from `app/main.py`. -/
def moderateAlert : String := "⚠️ MODERATE RISK — Monitor site closely."

/-- Low-risk alert text from `app/main.py`. -/
def lowAlert : String := "✅ LOW RISK — Conditions stable."

/-- `risk_level = str(result.get("risk") or result.get("risk_level") or
result.get("Risk") or "")` from step 11 of `/predict`. -/
def extractRiskLevel (result : List (String × Val)) : String :=
  pyStr (pyOr (pyOr (pyOr (pyGet result "risk" Val.none)
                          (pyGet result "risk_level" Val.none))
                    (pyGet result "Risk" Val.none))
              (Val.str ""))

/-- `prob = result.get("probability") or result.get("prob") or None`
from step 11 of `/predict`. -/
def extractProb (result : List (String × Val)) : Val :=
  pyOr (pyGet result "probability" Val.none)
       (pyOr (pyGet result "prob" Val.none) Val.none)

/-- The alert decision on the lowercased risk label, with the
probability-threshold fallback (`float(prob)` failure gives `None`). -/
def alertFromLevel (rl : String) (prob : Val) : Option String :=
  if strContains rl "high" then some highAlert
  else if strContains rl "medium" || strContains rl "moderate" then some moderateAlert
  else if strContains rl "low" then some lowAlert
  else
    match prob with
    | Val.none => Option.none
    | v =>
      match pyFloat v with
      | some p =>
        some (if p > 0.7 then highAlert else if p > 0.4 then moderateAlert else lowAlert)
      | Option.none => Option.none

/-- Step 11 of `/predict`: the alert derived from the predictor's result
dict. -/
def formatAlert (result : List (String × Val)) : Option String :=
  alertFromLevel (pyLower (extractRiskLevel result)) (extractProb result)

/-- The error responses of `/predict`: 400 for missing/non-numeric
coordinates, 503 for the `RuntimeError`s raised by the predictor (both
model-not-loaded and prediction-failed are `RuntimeError`s, so both are
caught by the `except RuntimeError` arm), 500 for any other exception
(the `ValueError` for missing features would land here). -/
inductive ApiError where
  | missingCoords
  | nonNumericCoords
  | modelUnavailable
  | predictionError

/-- The success payload of `/predict`. -/
structure PredictResponse where
  features : List (String × Val)
  prediction : RiskPrediction
  alert : Option String

/-- The `/predict` endpoint for an already-parsed JSON body: coordinate
extraction and validation, feature resolution, prediction, alert. -/
def predictEndpoint (body : List (String × Val)) (ext : Externals)
    (mL : Bool) (model : List ℚ → ℚ) : Except ApiError PredictResponse :=
  match pyGet body "lat" (pyGet body "latitude" Val.none),
        pyGet body "lon" (pyGet body "longitude" Val.none) with
  | Val.none, _ => Except.error ApiError.missingCoords
  | _, Val.none => Except.error ApiError.missingCoords
  | latV, lonV =>
    match pyFloat latV, pyFloat lonV with
    | some lat, some lon =>
      let features := resolveFeatures lat lon body ext
      match predictorPredict mL model features with
      | Except.error PredictError.modelNotLoaded => Except.error ApiError.modelUnavailable
      | Except.error PredictError.predictionFailed => Except.error ApiError.modelUnavailable
      | Except.error (PredictError.missingFeatures _) => Except.error ApiError.predictionError
      | Except.ok result =>
        Except.ok { features := features, prediction := result,
                    alert := formatAlert result.toDict }
    | _, _ => Except.error ApiError.nonNumericCoords

/-- Modelled from the spec: the shape of the normalized weather snapshot.
`fetch_openweather` (in `app/services/weather.py`, not part of the core
source) "returns `None` or a mapping possibly containing `temp`,
`humidity`, `wind_speed`, and `rain`" — in particular it never exposes a
`rain_1h` key. -/
def specWeatherKeys : List String := ["temp", "humidity", "wind_speed", "rain"]

/-! ### Concrete inputs used by the witnesses and counterexamples -/

/-- Externals where every lookup comes back empty/absent. -/
def ext0 : Externals :=
  { weather := Option.none, slope := Except.ok Option.none, sensor := Except.ok [] }

/-- A constant classifier model. -/
def modelConst (p : ℚ) : List ℚ → ℚ := fun _ => p

/-- The sample feature dict from the predictor's manual test. -/
def sampleFeatureDict : List (String × Val) :=
  [("rainfall", Val.num 35), ("temperature", Val.num 24), ("slope", Val.num 38),
   ("wind_speed", Val.num 6), ("displacement_rate", Val.num 0.09), ("vibration", Val.num 2.1)]

/-- Predictor output for probability exactly 0.7. -/
def pred07 : RiskPrediction :=
  { risk := "medium", probability := 0.7, rockfall_predicted := 1 }

/-- Predictor output for probability 0.55. -/
def pred055 : RiskPrediction :=
  { risk := "medium", probability := 0.55, rockfall_predicted := 1 }

/-- The Jharia demo-override entry of the table. -/
def jhariaFeatures : RawFeatures :=
  { slope := Val.num 50, rainfall := Val.num 70, temperature := Val.num 35,
    vibration := Val.num 3.5, wind_speed := Val.num 10.0, displacement_rate := Val.num 0.5 }

/-- A request body whose coordinates round to the Jharia override key. -/
def jhariaBody : List (String × Val) :=
  [("lat", Val.num 23.04), ("lon", Val.num 86.53)]

/-- A non-override request body carrying only coordinates. -/
def c4Body : List (String × Val) := [("lat", Val.num 10), ("lon", Val.num 10)]

/-- Externals whose weather snapshot is exactly the spec's rainfall
example, `{"rain": {"3h": 9}}`. -/
def c4Ext : Externals :=
  { weather := some [("rain", Val.dict [("3h", Val.num 9)])],
    slope := Except.ok Option.none, sensor := Except.ok [] }

/-- A non-override body binding rainfall, temperature, wind_speed, slope
and vibration all to explicit `null`. -/
def c9Body : List (String × Val) :=
  [("lat", Val.num 10), ("lon", Val.num 10),
   ("rainfall", Val.none), ("temperature", Val.none), ("wind_speed", Val.none),
   ("slope", Val.none), ("vibration", Val.none)]

/-- Externals whose snapshot and lookups all provide values, to exhibit
which of them are consulted. -/
def c9Ext : Externals :=
  { weather := some [("temp", Val.num 99), ("wind_speed", Val.num 99), ("rain_1h", Val.num 99)],
    slope := Except.ok (some 42), sensor := Except.ok [("vibration", Val.num 1.3)] }

/-- A minimal valid request body. -/
def body0 : List (String × Val) := [("lat", Val.num 0), ("lon", Val.num 0)]

/-- The resolved features for `body0` against `ext0`. -/
def features0 : List (String × Val) :=
  [("rainfall", Val.num 10), ("temperature", Val.num 25), ("slope", Val.num 30),
   ("wind_speed", Val.num 2), ("displacement_rate", Val.num 0.3), ("vibration", Val.num 0)]

/-- Predictor output for probability 0.8 (risk "high"). -/
def pred08 : RiskPrediction :=
  { risk := "high", probability := 0.8, rockfall_predicted := 1 }

/-- The full endpoint response for `body0` against `ext0` with a loaded
model returning 0.8. -/
def resp0 : PredictResponse :=
  { features := features0, prediction := pred08, alert := some highAlert }

/-! ### Helper lemmas -/

theorem dictGet_cons (k : String) (v : Val) (rest : List (String × Val)) (key : String) :
    dictGet ((k, v) :: rest) key = if k = key then some v else dictGet rest key := rfl

theorem pyGet_key_absent {d : List (String × Val)} {k : String} {v : Val}
    (h : dictGet d k = Option.none) : pyGet d k v = v := by
  simp [pyGet, h]

theorem pyGet_key_present {d : List (String × Val)} {k : String} {w v : Val}
    (h : dictGet d k = some w) : pyGet d k v = w := by
  simp [pyGet, h]

theorem dictGet_none_of_keys {w : List (String × Val)} {k : String}
    (h : ∀ kv ∈ w, kv.1 ≠ k) : dictGet w k = Option.none := by
  induction w with
  | nil => rfl
  | cons a rest ih =>
    obtain ⟨ak, av⟩ := a
    rw [dictGet_cons, if_neg (h (ak, av) (List.mem_cons_self _ _))]
    exact ih fun kv hkv => h kv (List.mem_cons_of_mem _ hkv)

theorem predict_success_shape (mL : Bool) (model : List ℚ → ℚ)
    (features : List (String × Val)) (pred : RiskPrediction)
    (h : predictorPredict mL model features = Except.ok pred) :
    mL = true ∧ ∃ vec, extractVec features = some vec ∧
      pred = { risk := if model vec > 0.7 then "high"
                       else if model vec > 0.4 then "medium" else "low",
               probability := round3 (model vec),
               rockfall_predicted := if model vec > 0.5 then 1 else 0 } := by
  cases mL with
  | false => exact absurd h (by simp [predictorPredict])
  | true =>
    refine ⟨rfl, ?_⟩
    simp only [predictorPredict] at h
    split at h
    · exact Except.noConfusion h
    · split at h
      · exact Except.noConfusion h
      · rename_i vec hvec
        exact ⟨vec, hvec, (((Except.ok.injEq _ _).mp h).symm)⟩

theorem riskIf_high (p : ℚ) :
    ((if p > 0.7 then "high" else if p > 0.4 then "medium" else "low") = "high") ↔ 0.7 < p := by
  by_cases h7 : p > 0.7
  · simp [h7]
  · by_cases h4 : p > 0.4 <;> simp [h7, h4]

theorem riskIf_medium (p : ℚ) :
    ((if p > 0.7 then "high" else if p > 0.4 then "medium" else "low") = "medium") ↔
      0.4 < p ∧ p ≤ 0.7 := by
  by_cases h7 : p > 0.7
  · have h7n : ¬ p ≤ 0.7 := not_le.mpr h7
    simp [h7, h7n]
  · by_cases h4 : p > 0.4
    · simp [h7, h4, not_lt.mp h7]
    · simp [h7, h4]

theorem riskIf_low (p : ℚ) :
    ((if p > 0.7 then "high" else if p > 0.4 then "medium" else "low") = "low") ↔ p ≤ 0.4 := by
  by_cases h7 : p > 0.7
  · have : ¬ p ≤ 0.4 := not_le.mpr (lt_trans (by norm_num) h7)
    simp [h7, this]
  · by_cases h4 : p > 0.4
    · simp [h7, h4, not_le.mpr h4]
    · simp [h7, h4, not_lt.mp h4]

theorem labelIf_one (p : ℚ) : ((if p > 0.5 then (1 : ℤ) else 0) = 1) ↔ 0.5 < p := by
  by_cases h5 : p > 0.5 <;> simp [h5]

/-! ### C1 -/

/-- C1: on every feature vector on which the classifier succeeds, the risk
label is determined by the model probability p via the fixed three-way
split: "high" iff p > 0.7, "medium" iff 0.4 < p ≤ 0.7, "low" iff p ≤ 0.4;
in particular p = 0.70 yields "medium", not "high". -/
theorem risk_label_three_way_split (mL : Bool) (model : List ℚ → ℚ)
    (features : List (String × Val)) (pred : RiskPrediction)
    (h : predictorPredict mL model features = Except.ok pred) :
    ∃ vec, extractVec features = some vec ∧
      (pred.risk = "high" ↔ 0.7 < model vec) ∧
      (pred.risk = "medium" ↔ 0.4 < model vec ∧ model vec ≤ 0.7) ∧
      (pred.risk = "low" ↔ model vec ≤ 0.4) ∧
      (model vec = 0.7 → pred.risk = "medium") := by
  obtain ⟨-, vec, hvec, rfl⟩ := predict_success_shape mL model features pred h
  refine ⟨vec, hvec, riskIf_high _, riskIf_medium _, riskIf_low _, fun h07 => ?_⟩
  exact (riskIf_medium _).mpr (by rw [h07]; norm_num)

/-- Witness for C1 at probability exactly 0.7: the classifier returns
risk "medium". -/
theorem risk_label_three_way_split_witness :
    ∃ vec, extractVec sampleFeatureDict = some vec ∧
      (pred07.risk = "high" ↔ 0.7 < modelConst 0.7 vec) ∧
      (pred07.risk = "medium" ↔ 0.4 < modelConst 0.7 vec ∧ modelConst 0.7 vec ≤ 0.7) ∧
      (pred07.risk = "low" ↔ modelConst 0.7 vec ≤ 0.4) ∧
      (modelConst 0.7 vec = 0.7 → pred07.risk = "medium") :=
  risk_label_three_way_split true (modelConst 0.7) sampleFeatureDict pred07 (by
    have h2 : extractVec sampleFeatureDict = some [35, 24, 38, 6, 0.09, 2.1] := rfl
    have h1 : requiredKeys.filter (fun k => (dictGet sampleFeatureDict k).isNone) = [] := rfl
    simp only [predictorPredict, h1, h2, modelConst, pred07]
    norm_num [round3, roundHalfEven])

/-! ### C2 -/

/-- C2: every successful classification returns the model probability
rounded to 3 decimal places, and rockfall_predicted = 1 iff the model
probability exceeds 0.5; a probability in (0.5, 0.7] is labeled "medium"
yet predicted positive. -/
theorem probability_rounded_and_binary_flag (mL : Bool) (model : List ℚ → ℚ)
    (features : List (String × Val)) (pred : RiskPrediction)
    (h : predictorPredict mL model features = Except.ok pred) :
    ∃ vec, extractVec features = some vec ∧
      pred.probability = round3 (model vec) ∧
      (pred.rockfall_predicted = 1 ↔ 0.5 < model vec) ∧
      (pred.rockfall_predicted = 0 ∨ pred.rockfall_predicted = 1) ∧
      (0.5 < model vec ∧ model vec ≤ 0.7 →
        pred.risk = "medium" ∧ pred.rockfall_predicted = 1) := by
  obtain ⟨-, vec, hvec, rfl⟩ := predict_success_shape mL model features pred h
  refine ⟨vec, hvec, rfl, labelIf_one _, ?_, fun hmid => ?_⟩
  · by_cases h5 : model vec > 0.5
    · exact Or.inr (by simp [h5])
    · exact Or.inl (by simp [h5])
  · constructor
    · exact (riskIf_medium _).mpr ⟨lt_trans (by norm_num) hmid.1, hmid.2⟩
    · exact (labelIf_one _).mpr hmid.1

/-- Witness for C2 at probability 0.55: probability field 0.55, risk
"medium", rockfall_predicted = 1. -/
theorem probability_rounded_and_binary_flag_witness :
    ∃ vec, extractVec sampleFeatureDict = some vec ∧
      pred055.probability = round3 (modelConst 0.55 vec) ∧
      (pred055.rockfall_predicted = 1 ↔ 0.5 < modelConst 0.55 vec) ∧
      (pred055.rockfall_predicted = 0 ∨ pred055.rockfall_predicted = 1) ∧
      (0.5 < modelConst 0.55 vec ∧ modelConst 0.55 vec ≤ 0.7 →
        pred055.risk = "medium" ∧ pred055.rockfall_predicted = 1) :=
  probability_rounded_and_binary_flag true (modelConst 0.55) sampleFeatureDict pred055 (by
    have h1 : requiredKeys.filter (fun k => (dictGet sampleFeatureDict k).isNone) = [] := rfl
    have h2 : extractVec sampleFeatureDict = some [35, 24, 38, 6, 0.09, 2.1] := rfl
    simp only [predictorPredict, h1, h2, modelConst, pred055]
    norm_num [round3, roundHalfEven])

/-! ### C7 -/

/-- C7: when one or more of the six required feature fields is missing
(and the model is loaded), classification fails with the client-data
`ValueError` carrying the names of exactly the missing fields, and the
model is never invoked (the outcome is independent of the model). -/
theorem missing_features_rejected (model : List ℚ → ℚ)
    (features : List (String × Val)) (m : String) (ms : List String)
    (hm : requiredKeys.filter (fun k => (dictGet features k).isNone) = m :: ms) :
    predictorPredict true model features =
      Except.error (PredictError.missingFeatures (m :: ms)) ∧
    (∀ model2 : List ℚ → ℚ,
      predictorPredict true model2 features = predictorPredict true model features) ∧
    (∀ k, k ∈ m :: ms ↔ k ∈ requiredKeys ∧ dictGet features k = Option.none) := by
  refine ⟨?_, ?_, ?_⟩
  · simp only [predictorPredict, hm]
  · intro model2
    simp only [predictorPredict, hm]
  · intro k
    rw [← hm]
    simp [List.mem_filter, Option.isNone_iff_eq_none]

/-- Witness for C7: the empty feature mapping is rejected with all six
required names reported, for any model. -/
theorem missing_features_rejected_witness :
    predictorPredict true (modelConst 0) [] =
      Except.error (PredictError.missingFeatures
        ("rainfall" :: ["temperature", "slope", "wind_speed", "displacement_rate", "vibration"])) ∧
    (∀ model2 : List ℚ → ℚ,
      predictorPredict true model2 [] = predictorPredict true (modelConst 0) []) ∧
    (∀ k, k ∈ "rainfall" :: ["temperature", "slope", "wind_speed", "displacement_rate", "vibration"] ↔
      k ∈ requiredKeys ∧ dictGet [] k = Option.none) :=
  missing_features_rejected (modelConst 0) [] "rainfall"
    ["temperature", "slope", "wind_speed", "displacement_rate", "vibration"] (by rfl)

/-! ### Rounding and lookup evaluation helpers -/

theorem round1_jharia_lat : round1 23.04 = 23.0 := by
  norm_num [round1, roundHalfEven]

theorem round1_jharia_lon : round1 86.53 = 86.5 := by
  norm_num [round1, roundHalfEven]

theorem round1_ten : round1 10 = 10 := by
  norm_num [round1, roundHalfEven]

theorem round1_zero : round1 0 = 0 := by
  norm_num [round1, roundHalfEven]

theorem lookupDemo_jharia : lookupDemo 23.0 86.5 = some jhariaFeatures := by
  norm_num [lookupDemo, demoOverrides, List.find?, jhariaFeatures]

theorem lookupDemo_ten : lookupDemo 10 10 = Option.none := by
  norm_num [lookupDemo, demoOverrides, List.find?, Prod.ext_iff]

theorem lookupDemo_zero : lookupDemo 0 0 = Option.none := by
  norm_num [lookupDemo, demoOverrides, List.find?, Prod.ext_iff]

theorem coerceFinal_keys (f : RawFeatures) : (coerceFinal f).map Prod.fst = requiredKeys := rfl

theorem coerceFinal_num (f : RawFeatures) : ∀ kv ∈ coerceFinal f, ∃ q, kv.2 = Val.num q := by
  intro kv hkv
  simp [coerceFinal] at hkv
  rcases hkv with rfl | rfl | rfl | rfl | rfl | rfl <;> exact ⟨_, rfl⟩

theorem resolveDisplacement_num (body : List (String × Val)) (sv : Val) :
    ∃ q, resolveDisplacement body sv = Val.num q := by
  unfold resolveDisplacement
  split
  · exact ⟨_, rfl⟩
  · split
    · exact ⟨_, rfl⟩
    · exact ⟨_, rfl⟩

/-! ### C6 -/

/-- C6: for every request with valid coordinates (override or not) and any
behaviour of the external lookups, the resolved feature dict entering the
classifier has exactly the six named fields in the fixed order, every one
of them numeric. -/
theorem resolved_features_complete_and_numeric (lat lon : ℚ)
    (body : List (String × Val)) (ext : Externals) :
    (resolveFeatures lat lon body ext).map Prod.fst = requiredKeys ∧
    ∀ kv ∈ resolveFeatures lat lon body ext, ∃ q, kv.2 = Val.num q := by
  unfold resolveFeatures
  split
  · exact ⟨coerceFinal_keys _, coerceFinal_num _⟩
  · exact ⟨coerceFinal_keys _, coerceFinal_num _⟩

/-- Witness for C6 at a concrete request. -/
theorem resolved_features_complete_and_numeric_witness :
    (resolveFeatures 0 0 body0 ext0).map Prod.fst = requiredKeys ∧
    ∀ kv ∈ resolveFeatures 0 0 body0 ext0, ∃ q, kv.2 = Val.num q :=
  resolved_features_complete_and_numeric 0 0 body0 ext0

/-! ### C3 -/

/-- C3: whenever the request's coordinates, each rounded to one decimal
place, hit a demo-override entry, the resolved feature dict is exactly
that entry's six values verbatim, and the result is independent of the
request body's feature fields and of every external lookup. -/
theorem demo_override_replaces_verbatim (lat lon : ℚ) (body : List (String × Val))
    (ext : Externals) (e : RawFeatures) (s r t v w d : ℚ)
    (hdemo : lookupDemo (round1 lat) (round1 lon) = some e)
    (he : e = { slope := Val.num s, rainfall := Val.num r, temperature := Val.num t,
                vibration := Val.num v, wind_speed := Val.num w,
                displacement_rate := Val.num d }) :
    resolveFeatures lat lon body ext =
      [("rainfall", Val.num r), ("temperature", Val.num t), ("slope", Val.num s),
       ("wind_speed", Val.num w), ("displacement_rate", Val.num d),
       ("vibration", Val.num v)] ∧
    ∀ (body2 : List (String × Val)) (ext2 : Externals),
      resolveFeatures lat lon body2 ext2 = resolveFeatures lat lon body ext := by
  subst he
  constructor
  · unfold resolveFeatures
    rw [hdemo]
    simp [coerceFinal, toFloatD, pyFloat]
  · intro body2 ext2
    unfold resolveFeatures
    rw [hdemo]

/-- Witness for C3: lat=23.04, lon=86.53 rounds to (23.0, 86.5) and
returns the Jharia values verbatim for any body and externals. -/
theorem demo_override_replaces_verbatim_witness :
    resolveFeatures 23.04 86.53 jhariaBody ext0 =
      [("rainfall", Val.num 70), ("temperature", Val.num 35), ("slope", Val.num 50),
       ("wind_speed", Val.num 10.0), ("displacement_rate", Val.num 0.5),
       ("vibration", Val.num 3.5)] ∧
    ∀ (body2 : List (String × Val)) (ext2 : Externals),
      resolveFeatures 23.04 86.53 body2 ext2 = resolveFeatures 23.04 86.53 jhariaBody ext0 :=
  demo_override_replaces_verbatim 23.04 86.53 jhariaBody ext0 jhariaFeatures 50 70 35 3.5 10.0 0.5
    (by rw [round1_jharia_lat, round1_jharia_lon]; exact lookupDemo_jharia) rfl

/-! ### C4 -/

/-- C4 counterexample: with weather snapshot {"rain": {"3h": 9}} and no
request override, the resolved rainfall is the default 10, not 3.0 as the
claim states: the weather fallback in /predict reads the key "rain_1h",
which the normalized snapshot never carries. -/
theorem rainfall_weather_claim_counterexample :
    dictGet (resolveFeatures 10 10 c4Body c4Ext) "rainfall" = some (Val.num 10) ∧
    dictGet (resolveFeatures 10 10 c4Body c4Ext) "rainfall" ≠ some (Val.num 3) := by
  have hd : lookupDemo (round1 10) (round1 10) = Option.none := by
    rw [round1_ten]; exact lookupDemo_ten
  have h1 : dictGet (resolveFeatures 10 10 c4Body c4Ext) "rainfall" = some (Val.num 10) := by
    unfold resolveFeatures
    rw [hd]
    simp [resolveNonDemo, baseFeatures, weatherDict, c4Ext, c4Body, coerceFinal,
      dictGet, pyGet, toFloatD, pyFloat]
    norm_num
  refine ⟨h1, ?_⟩
  rw [h1]
  simp only [ne_eq, Option.some.injEq, Val.num.injEq]
  norm_num

/-- C4 amended: in /predict, rainfall resolves by request "rainfall"
override → the weather snapshot's "rain_1h" key → the request's raw
"rain" field → default 10.0; and since the normalized weather snapshot
exposes only temp/humidity/wind_speed/rain, the weather step never
applies, so without a request override rainfall is the raw "rain" field
or 10.0 (in particular {"rain": {"3h": 9}} resolves to 10.0). -/
theorem rainfall_precedence_amended (lat lon : ℚ) (body : List (String × Val))
    (ext : Externals)
    (hdemo : lookupDemo (round1 lat) (round1 lon) = Option.none) :
    dictGet (resolveFeatures lat lon body ext) "rainfall" =
      some (Val.num (toFloatD (pyGet body "rainfall"
        (pyGet (weatherDict ext) "rain_1h" (pyGet body "rain" (Val.num 10.0)))) 10.0)) ∧
    ((∀ kv ∈ weatherDict ext, kv.1 ∈ specWeatherKeys) →
      dictGet body "rainfall" = Option.none →
      dictGet (resolveFeatures lat lon body ext) "rainfall" =
        some (Val.num (toFloatD (pyGet body "rain" (Val.num 10.0)) 10.0))) := by
  have hmain : dictGet (resolveFeatures lat lon body ext) "rainfall" =
      some (Val.num (toFloatD (pyGet body "rainfall"
        (pyGet (weatherDict ext) "rain_1h" (pyGet body "rain" (Val.num 10.0)))) 10.0)) := by
    unfold resolveFeatures
    rw [hdemo]
    simp [resolveNonDemo, baseFeatures, coerceFinal, dictGet]
  refine ⟨hmain, fun hshape hrain => ?_⟩
  have hw : dictGet (weatherDict ext) "rain_1h" = Option.none := by
    apply dictGet_none_of_keys
    intro kv hkv hkeq
    have hmem := hshape kv hkv
    rw [hkeq] at hmem
    simp [specWeatherKeys] at hmem
  rw [hmain, pyGet_key_absent hrain, pyGet_key_absent hw]

/-- Witness for the amended C4 at the spec's example snapshot: resolved
rainfall is 10.0. -/
theorem rainfall_precedence_amended_witness :
    dictGet (resolveFeatures 10 10 c4Body c4Ext) "rainfall" =
      some (Val.num (toFloatD (pyGet c4Body "rainfall"
        (pyGet (weatherDict c4Ext) "rain_1h" (pyGet c4Body "rain" (Val.num 10.0)))) 10.0)) ∧
    ((∀ kv ∈ weatherDict c4Ext, kv.1 ∈ specWeatherKeys) →
      dictGet c4Body "rainfall" = Option.none →
      dictGet (resolveFeatures 10 10 c4Body c4Ext) "rainfall" =
        some (Val.num (toFloatD (pyGet c4Body "rain" (Val.num 10.0)) 10.0))) :=
  rainfall_precedence_amended 10 10 c4Body c4Ext
    (by rw [round1_ten]; exact lookupDemo_ten)

/-! ### C5 -/

/-- C5: without a displacement_rate override, displacement_rate comes from
the raw request's "displacement" field when present (0.01 when its
coercion fails), else the heuristic max(0.01, 0.01 × resolved slope);
slope 40 yields 0.4 and slope 0.5 yields 0.01. -/
theorem displacement_rate_resolution (body : List (String × Val)) (ext : Externals)
    (lat lon : ℚ) :
    (∀ slopeVal : Val, pyGet body "displacement" Val.none = Val.none →
      resolveDisplacement body slopeVal =
        Val.num (max 0.01 (0.01 * toFloatD slopeVal 30.0))) ∧
    (∀ (slopeVal : Val) (q : ℚ), pyGet body "displacement" Val.none ≠ Val.none →
      pyFloat (pyGet body "displacement" Val.none) = some q →
      resolveDisplacement body slopeVal = Val.num q) ∧
    (∀ slopeVal : Val, pyGet body "displacement" Val.none ≠ Val.none →
      pyFloat (pyGet body "displacement" Val.none) = Option.none →
      resolveDisplacement body slopeVal = Val.num 0.01) ∧
    (pyGet body "displacement" Val.none = Val.none →
      resolveDisplacement body (Val.num 40) = Val.num 0.4 ∧
      resolveDisplacement body (Val.num 0.5) = Val.num 0.01) ∧
    (lookupDemo (round1 lat) (round1 lon) = Option.none →
      pyGet body "displacement_rate" Val.none = Val.none →
      dictGet (resolveFeatures lat lon body ext) "displacement_rate" =
        some (resolveDisplacement body (resolveSlope (pyGet body "slope" Val.none) ext))) := by
  refine ⟨?_, ?_, ?_, ?_, ?_⟩
  · intro sv h
    simp [resolveDisplacement, h]
  · intro sv q hne hq
    unfold resolveDisplacement
    rcases hval : pyGet body "displacement" Val.none with _ | q2 | s2 | d2
    · exact absurd hval hne
    · rw [hval] at hq
      simp [pyFloat] at hq
      simp [hq]
      rfl
    · rw [hval] at hq
      simp [pyFloat] at hq
    · rw [hval] at hq
      simp [pyFloat] at hq
  · intro sv hne hq
    unfold resolveDisplacement
    rcases hval : pyGet body "displacement" Val.none with _ | q2 | s2 | d2
    · exact absurd hval hne
    · rw [hval] at hq
      simp [pyFloat] at hq
    · simp [pyFloat]
    · simp [pyFloat]
  · intro h
    constructor
    · simp [resolveDisplacement, h, toFloatD, pyFloat]
      norm_num
    · simp [resolveDisplacement, h, toFloatD, pyFloat]
      norm_num
  · intro hdemo hdr
    obtain ⟨q, hq⟩ := resolveDisplacement_num body (resolveSlope (pyGet body "slope" Val.none) ext)
    unfold resolveFeatures
    rw [hdemo]
    simp [resolveNonDemo, baseFeatures, coerceFinal, dictGet, hdr, hq, toFloatD, pyFloat]

/-- Witness for C5: with no displacement field, slope 40 gives 0.4,
slope 0.5 gives 0.01, and the pipeline stores the heuristic value. -/
theorem displacement_rate_resolution_witness :
    resolveDisplacement [] (Val.num 40) = Val.num 0.4 ∧
    resolveDisplacement [] (Val.num 0.5) = Val.num 0.01 ∧
    dictGet (resolveFeatures 10 10 [] ext0) "displacement_rate" =
      some (resolveDisplacement [] (resolveSlope (pyGet [] "slope" Val.none) ext0)) := by
  obtain ⟨-, -, -, h4, h5⟩ := displacement_rate_resolution [] ext0 10 10
  obtain ⟨h40, h05⟩ := h4 rfl
  exact ⟨h40, h05, h5 (by rw [round1_ten]; exact lookupDemo_ten) rfl⟩

/-! ### C9 -/

/-- C9: an explicitly-null feature key behaves differently per field: a
null rainfall/temperature/wind_speed resolves directly to its fixed
default (10.0/25.0/2.0), skipping the weather snapshot even when it
provides values, while a null slope or vibration still consults the slope
lookup or the sensor state. -/
theorem null_field_asymmetry (lat lon : ℚ) (body : List (String × Val))
    (ext : Externals)
    (hdemo : lookupDemo (round1 lat) (round1 lon) = Option.none) :
    (dictGet body "rainfall" = some Val.none →
      dictGet (resolveFeatures lat lon body ext) "rainfall" = some (Val.num 10.0)) ∧
    (dictGet body "temperature" = some Val.none →
      dictGet (resolveFeatures lat lon body ext) "temperature" = some (Val.num 25.0)) ∧
    (dictGet body "wind_speed" = some Val.none →
      dictGet (resolveFeatures lat lon body ext) "wind_speed" = some (Val.num 2.0)) ∧
    (dictGet body "slope" = some Val.none → ∀ s : ℚ, ext.slope = Except.ok (some s) →
      dictGet (resolveFeatures lat lon body ext) "slope" = some (Val.num s)) ∧
    (dictGet body "vibration" = some Val.none →
      ∀ (st : List (String × Val)) (q : ℚ), ext.sensor = Except.ok st →
      pyGet st "vibration" (Val.num 0.0) = Val.num q →
      dictGet (resolveFeatures lat lon body ext) "vibration" = some (Val.num q)) := by
  refine ⟨?_, ?_, ?_, ?_, ?_⟩
  · intro h
    unfold resolveFeatures
    rw [hdemo]
    simp [resolveNonDemo, baseFeatures, coerceFinal, dictGet,
      pyGet_key_present h, toFloatD]
  · intro h
    unfold resolveFeatures
    rw [hdemo]
    simp [resolveNonDemo, baseFeatures, coerceFinal, dictGet,
      pyGet_key_present h, toFloatD]
  · intro h
    unfold resolveFeatures
    rw [hdemo]
    simp [resolveNonDemo, baseFeatures, coerceFinal, dictGet,
      pyGet_key_present h, toFloatD]
  · intro h s hs
    unfold resolveFeatures
    rw [hdemo]
    simp [resolveNonDemo, baseFeatures, coerceFinal, dictGet,
      pyGet_key_present h, resolveSlope, hs, toFloatD, pyFloat]
  · intro h st q hst hv
    unfold resolveFeatures
    rw [hdemo]
    simp [resolveNonDemo, baseFeatures, coerceFinal, dictGet,
      pyGet_key_present h, resolveVibration, hst, hv, toFloatD, pyFloat]

/-- Witness for C9: with every key bound to null and externals that all
provide values, rainfall/temperature/wind_speed take their defaults while
slope and vibration take the external readings. -/
theorem null_field_asymmetry_witness :
    dictGet (resolveFeatures 10 10 c9Body c9Ext) "rainfall" = some (Val.num 10.0) ∧
    dictGet (resolveFeatures 10 10 c9Body c9Ext) "temperature" = some (Val.num 25.0) ∧
    dictGet (resolveFeatures 10 10 c9Body c9Ext) "wind_speed" = some (Val.num 2.0) ∧
    dictGet (resolveFeatures 10 10 c9Body c9Ext) "slope" = some (Val.num 42) ∧
    dictGet (resolveFeatures 10 10 c9Body c9Ext) "vibration" = some (Val.num 1.3) := by
  obtain ⟨h1, h2, h3, h4, h5⟩ := null_field_asymmetry 10 10 c9Body c9Ext
    (by rw [round1_ten]; exact lookupDemo_ten)
  exact ⟨h1 rfl, h2 rfl, h3 rfl, h4 rfl 42 rfl, h5 rfl _ 1.3 rfl rfl⟩

/-! ### C8 -/

theorem extractRiskLevel_pair (s : String) (pv : Val) :
    extractRiskLevel [("risk", Val.str s), ("probability", pv)] = s := by
  by_cases hs : s = ""
  · subst hs; rfl
  · simp [extractRiskLevel, pyGet, dictGet, pyOr, pyTruthy, pyStr, hs]

theorem extractProb_pair (s : String) (pv : Val) :
    extractProb [("risk", Val.str s), ("probability", pv)] = pyOr pv Val.none := rfl

/-- C8 counterexample: with an unrecognized risk label and a probability
of exactly 0, the alert is null even though a probability is available
(the claim would require the low alert, since 0 ≤ 0.4): the Python
`or`-coalescing discards the falsy probability 0. -/
theorem alert_zero_probability_counterexample :
    formatAlert [("risk", Val.str "unknown"), ("probability", Val.num 0)] = Option.none ∧
    (Option.none : Option String) ≠ some lowAlert := by
  constructor
  · rfl
  · simp

/-- C8 amended: the alert is chosen by case-insensitive substring match on
the risk label (high, then medium/moderate, then low); when no label
matches, the fallback applies the probability thresholds (> 0.7 high,
> 0.4 moderate, else low) to a truthy numeric probability, and the alert
is null when the probability is absent, null, or equal to 0 (falsy values
are skipped by the or-coalescing). -/
theorem alert_selection_amended (s : String) (pv : Val) :
    (strContains (pyLower s) "high" = true →
      formatAlert [("risk", Val.str s), ("probability", pv)] = some highAlert) ∧
    (strContains (pyLower s) "high" = false →
      (strContains (pyLower s) "medium" || strContains (pyLower s) "moderate") = true →
      formatAlert [("risk", Val.str s), ("probability", pv)] = some moderateAlert) ∧
    (strContains (pyLower s) "high" = false →
      (strContains (pyLower s) "medium" || strContains (pyLower s) "moderate") = false →
      strContains (pyLower s) "low" = true →
      formatAlert [("risk", Val.str s), ("probability", pv)] = some lowAlert) ∧
    (strContains (pyLower s) "high" = false →
      (strContains (pyLower s) "medium" || strContains (pyLower s) "moderate") = false →
      strContains (pyLower s) "low" = false →
      (∀ p : ℚ, pv = Val.num p → p ≠ 0 →
        formatAlert [("risk", Val.str s), ("probability", pv)] =
          some (if p > 0.7 then highAlert else if p > 0.4 then moderateAlert else lowAlert)) ∧
      ((pv = Val.num 0 ∨ pv = Val.none) →
        formatAlert [("risk", Val.str s), ("probability", pv)] = Option.none)) := by
  have hrl : pyLower (extractRiskLevel [("risk", Val.str s), ("probability", pv)]) =
      pyLower s := by rw [extractRiskLevel_pair]
  have hpr := extractProb_pair s pv
  refine ⟨?_, ?_, ?_, ?_⟩
  · intro h1
    simp [formatAlert, hrl, hpr, alertFromLevel, h1]
  · intro h1 h2
    simp [formatAlert, hrl, hpr, alertFromLevel, h1, h2]
  · intro h1 h2 h3
    simp [formatAlert, hrl, hpr, alertFromLevel, h1, h2, h3]
  · intro h1 h2 h3
    constructor
    · intro p hpv hp
      subst hpv
      simp [formatAlert, hrl, hpr, alertFromLevel, h1, h2, h3, pyOr, pyTruthy, hp, pyFloat]
    · intro hcase
      rcases hcase with rfl | rfl <;>
        simp [formatAlert, hrl, hpr, alertFromLevel, h1, h2, h3, pyOr, pyTruthy]

/-- Witness for the amended C8: an unrecognized label with probability 0.6
falls back to the moderate alert. -/
theorem alert_selection_amended_witness :
    formatAlert [("risk", Val.str "critical"), ("probability", Val.num 0.6)] =
      some moderateAlert := by
  have h := ((alert_selection_amended "critical" (Val.num 0.6)).2.2.2 rfl rfl rfl).1
    0.6 rfl (by norm_num)
  rw [h]
  norm_num

/-! ### C10 -/

theorem formatAlert_high (pd : RiskPrediction) (hr : pd.risk = "high") :
    formatAlert pd.toDict = some highAlert := by
  simp only [RiskPrediction.toDict, hr]
  rfl

theorem formatAlert_medium (pd : RiskPrediction) (hr : pd.risk = "medium") :
    formatAlert pd.toDict = some moderateAlert := by
  simp only [RiskPrediction.toDict, hr]
  rfl

theorem formatAlert_low (pd : RiskPrediction) (hr : pd.risk = "low") :
    formatAlert pd.toDict = some lowAlert := by
  simp only [RiskPrediction.toDict, hr]
  rfl

theorem formatAlert_of_known_risk (pd : RiskPrediction)
    (hr : pd.risk = "high" ∨ pd.risk = "medium" ∨ pd.risk = "low") :
    (formatAlert pd.toDict = some highAlert ∨ formatAlert pd.toDict = some moderateAlert ∨
      formatAlert pd.toDict = some lowAlert) ∧ formatAlert pd.toDict ≠ Option.none := by
  rcases hr with hr | hr | hr
  · rw [formatAlert_high pd hr]
    exact ⟨Or.inl rfl, by simp⟩
  · rw [formatAlert_medium pd hr]
    exact ⟨Or.inr (Or.inl rfl), by simp⟩
  · rw [formatAlert_low pd hr]
    exact ⟨Or.inr (Or.inr rfl), by simp⟩

theorem predict_ok_risk_cases (mL : Bool) (model : List ℚ → ℚ)
    (features : List (String × Val)) (pd : RiskPrediction)
    (h : predictorPredict mL model features = Except.ok pd) :
    pd.risk = "high" ∨ pd.risk = "medium" ∨ pd.risk = "low" := by
  obtain ⟨-, vec, -, rfl⟩ := predict_success_shape mL model features pd h
  by_cases h7 : model vec > 0.7
  · exact Or.inl (by simp [h7])
  · by_cases h4 : model vec > 0.4
    · exact Or.inr (Or.inl (by simp [h7, h4]))
    · exact Or.inr (Or.inr (by simp [h7, h4]))

/-- C10: on every request on which classification succeeds, the response
alert is one of the three fixed alert strings and never null, because the
classifier's risk label is always exactly "low", "medium" or "high". -/
theorem success_alert_never_null (body : List (String × Val)) (ext : Externals)
    (mL : Bool) (model : List ℚ → ℚ) (resp : PredictResponse)
    (h : predictEndpoint body ext mL model = Except.ok resp) :
    (resp.alert = some highAlert ∨ resp.alert = some moderateAlert ∨
      resp.alert = some lowAlert) ∧
    resp.alert ≠ Option.none ∧
    (resp.prediction.risk = "high" ∨ resp.prediction.risk = "medium" ∨
      resp.prediction.risk = "low") := by
  simp only [predictEndpoint] at h
  split at h
  · exact Except.noConfusion h
  · exact Except.noConfusion h
  · split at h
    · split at h
      · exact Except.noConfusion h
      · exact Except.noConfusion h
      · exact Except.noConfusion h
      · rename_i result hres
        obtain rfl := ((Except.ok.injEq _ _).mp h)
        have hr := predict_ok_risk_cases mL model _ result hres
        have ha := formatAlert_of_known_risk result hr
        exact ⟨ha.1, ha.2, hr⟩
    · exact Except.noConfusion h

theorem resolveFeatures_body0 : resolveFeatures 0 0 body0 ext0 = features0 := by
  have hd : lookupDemo (round1 0) (round1 0) = Option.none := by
    rw [round1_zero]; exact lookupDemo_zero
  unfold resolveFeatures
  rw [hd]
  simp [resolveNonDemo, baseFeatures, weatherDict, ext0, body0, resolveSlope,
    resolveVibration, resolveDisplacement, pyGet, dictGet, coerceFinal, toFloatD,
    pyFloat, features0]
  norm_num

theorem predictorPredict_features0 :
    predictorPredict true (modelConst 0.8) features0 = Except.ok pred08 := by
  have h1 : requiredKeys.filter (fun k => (dictGet features0 k).isNone) = [] := rfl
  have h2 : extractVec features0 = some [10, 25, 30, 2, 0.3, 0] := rfl
  simp only [predictorPredict, h1, h2, modelConst, pred08]
  norm_num [round3, roundHalfEven]

theorem predictEndpoint_body0 :
    predictEndpoint body0 ext0 true (modelConst 0.8) = Except.ok resp0 := by
  have hlat : pyGet body0 "lat" (pyGet body0 "latitude" Val.none) = Val.num 0 := rfl
  have hlon : pyGet body0 "lon" (pyGet body0 "longitude" Val.none) = Val.num 0 := rfl
  simp only [predictEndpoint, hlat, hlon, pyFloat, resolveFeatures_body0,
    predictorPredict_features0, resp0]
  rw [formatAlert_high pred08 rfl]

/-- Witness for C10 at a concrete successful request: the alert is the
high-risk string. -/
theorem success_alert_never_null_witness :
    (resp0.alert = some highAlert ∨ resp0.alert = some moderateAlert ∨
      resp0.alert = some lowAlert) ∧
    resp0.alert ≠ Option.none ∧
    (resp0.prediction.risk = "high" ∨ resp0.prediction.risk = "medium" ∨
      resp0.prediction.risk = "low") :=
  success_alert_never_null body0 ext0 true (modelConst 0.8) resp0 predictEndpoint_body0
